import Mathlib

/-!
Shallow embedding of the Telegram study-group bot (src/main.py): the
per-chat bounded conversation history (a Python `deque(maxlen=20)`), the
generation call with its rollback-on-error behaviour
(`generate_gemini_answer`), the reply router (`handle_message`) and the
reply-mode setting command (`set_reply_mode`).

String operations are modelled over `List Char`: Python `str.strip`,
`str.lower`, `str.replace` and the substring test `in` agree with these
models on ASCII text (all tokens and handles in the program are ASCII).
-/

/-- One conversation turn, mirroring the Python dicts
`\x7b'role': ..., 'parts': [...]\x7d` stored in the history deque. -/
structure Turn where
  role : String
  parts : List String
deriving DecidableEq

/-- The `maxlen=20` capacity given to every chat history deque
(`generate_and_reply`, src/main.py line 177). -/
def HISTORY_MAXLEN : Nat := 20

/-- Python `deque.append` on a deque with `maxlen = m`: the element is
added on the right and, if the deque is full, leftmost elements are
discarded to fit the bound. -/
def dequeAppend (m : Nat) (h : List Turn) (t : Turn) : List Turn :=
  (h ++ [t]).drop (h.length + 1 - m)

/-- The dict appended for the user prompt (src/main.py line 146). -/
def userTurn (p : String) : Turn := ⟨"user", [p]⟩

/-- The dict appended for the model response (src/main.py line 155). -/
def modelTurn (t : String) : Turn := ⟨"model", [t]⟩

/-- Characters removed by Python `str.strip` (ASCII fragment). -/
def stripChars (l : List Char) : List Char :=
  ((l.dropWhile Char.isWhitespace).reverse.dropWhile Char.isWhitespace).reverse

/-- Python `str.strip()` with no argument: trims surrounding whitespace. -/
def pyStrip (s : String) : String := ⟨stripChars s.data⟩

/-- Python `str.lower()` (ASCII fragment). -/
def pyLower (s : String) : String := ⟨s.data.map Char.toLower⟩

/-- Does the list start with the given pattern? (Helper for the substring
test and for `str.replace`.) -/
def beginsWith : List Char → List Char → Bool
  | _, [] => true
  | [], _ :: _ => false
  | c :: cs, p :: ps => c == p && beginsWith cs ps

/-- Substring occurrence test, helper for Python `in`. -/
def containsSub : List Char → List Char → Bool
  | [], pat => pat.isEmpty
  | c :: cs, pat => beginsWith (c :: cs) pat || containsSub cs pat

/-- Python substring test `pat in s` (used for
`bot_username in message.text`, src/main.py line 222). -/
def pyIn (pat s : String) : Bool := containsSub s.data pat.data

/-- Fuel-based worker for Python `str.replace`: replaces every
non-overlapping occurrence, scanning left to right.  Structural in the
fuel so it reduces in the kernel; fuel `length + 1` is enough because
each step consumes at least one character whenever the pattern is
nonempty (all patterns used by the program are nonempty). -/
def replaceFuel (pat repl : List Char) : Nat → List Char → List Char
  | 0, s => s
  | _ + 1, [] => []
  | n + 1, c :: cs =>
      if !pat.isEmpty && beginsWith (c :: cs) pat then
        repl ++ replaceFuel pat repl n (List.drop (pat.length - 1) cs)
      else
        c :: replaceFuel pat repl n cs

/-- Python `s.replace(pat, repl)`: replaces ALL occurrences (used at
src/main.py lines 186 and 224). -/
def pyReplace (s pat repl : String) : String :=
  ⟨replaceFuel pat.data repl.data (s.data.length + 1) s.data⟩

/-- Modelled from the spec (for comparison with the source behaviour,
which uses `str.replace` on all occurrences): "message text with the
first occurrence of the bot-handle substring removed" — removes only the
FIRST occurrence of the pattern. -/
def removeFirstOcc (pat : List Char) : List Char → List Char
  | [] => []
  | c :: cs =>
      if !pat.isEmpty && beginsWith (c :: cs) pat then
        List.drop (pat.length - 1) cs
      else
        c :: removeFirstOcc pat cs

/-- Modelled from the spec: the prompt the spec describes for C2 — the
message text with the first occurrence of the handle removed and
surrounding whitespace trimmed. -/
def specFirstRemovedPrompt (text handle : String) : String :=
  pyStrip ⟨removeFirstOcc handle.data text.data⟩

/-- Outcome of the remote call `chat_session.send_message(prompt)`:
either it returns `response.text`, or it raises a `GoogleAPICallError`,
or it raises any other exception (src/main.py lines 150, 159, 164). -/
inductive GenOutcome where
  | success (text : String)
  | apiError
  | otherError
deriving DecidableEq

/-- Whether the remote call raised an error. -/
def GenOutcome.isError : GenOutcome → Bool
  | .success _ => false
  | .apiError => true
  | .otherError => true

/-- `generate_gemini_answer` (src/main.py lines 142-168): appends the
user turn, then on success appends the model turn only when the response
is non-empty after stripping and returns the raw text; on either error
class it pops the rightmost element (the just-appended user turn) and
returns the corresponding fixed error string. -/
def generate_gemini_answer (prompt : String) (chat_history : List Turn)
    (outcome : GenOutcome) : String × List Turn :=
  let h1 := dequeAppend HISTORY_MAXLEN chat_history (userTurn prompt)
  match outcome with
  | .success full_response_text =>
      if pyStrip full_response_text ≠ "" then
        (full_response_text,
         dequeAppend HISTORY_MAXLEN h1 (modelTurn full_response_text))
      else
        (full_response_text, h1)
  | .apiError => ("API Error: Could not get a response.", h1.dropLast)
  | .otherError => ("An unexpected error occurred.", h1.dropLast)

/-- Telegram chat type as used by the handlers. -/
inductive ChatType where
  | PRIVATE
  | GROUP
deriving DecidableEq

/-- Process-wide mutable bot state: the module-level `chat_reply_modes`
dict (src/main.py line 137; absent key = `none`) and each chat's
`context.chat_data['history']` deque (absent modelled as `[]`, matching
lazy creation of an empty `deque(maxlen=20)` at src/main.py line 177). -/
structure BotState where
  chat_reply_modes : Int → Option Bool
  histories : Int → List Turn

/-- `generate_and_reply` (src/main.py lines 170-190): runs the generation
against the chat's own history, stores the updated history back, and
sends the cleaned answer (`raw.replace('\\' + newline, newline).strip()`). -/
def generate_and_reply (st : BotState) (chatId : Int) (prompt : String)
    (outcome : GenOutcome) : BotState × String :=
  let chat_history := st.histories chatId
  let res := generate_gemini_answer prompt chat_history outcome
  let answer := pyStrip (pyReplace res.1 "\\\n" "\n")
  ({ st with
      histories := fun c => if c = chatId then res.2 else st.histories c },
   answer)

/-- One incoming text message as seen by `handle_message`:
`is_reply_to_bot` models `message.reply_to_message and
message.reply_to_message.from_user.id == context.bot.id`. -/
structure IncomingMessage where
  chatId : Int
  chatType : ChatType
  text : String
  is_reply_to_bot : Bool

/-- `handle_message` (src/main.py lines 211-227).  The returned list
records the prompt of each `generate_and_reply` call the handler makes,
so the claims about how often `generate` is invoked are statable. -/
def handle_message (botUsername : String) (st : BotState)
    (m : IncomingMessage) (outcome : GenOutcome) : BotState × List String :=
  match m.chatType with
  | .PRIVATE => ((generate_and_reply st m.chatId m.text outcome).1, [m.text])
  | .GROUP =>
      let mention_only_mode := (st.chat_reply_modes m.chatId).getD false
      if mention_only_mode then
        let bot_username := "@" ++ botUsername
        let bot_is_mentioned := pyIn bot_username m.text
        if m.is_reply_to_bot || bot_is_mentioned then
          let prompt := pyStrip (pyReplace m.text bot_username "")
          ((generate_and_reply st m.chatId prompt outcome).1, [prompt])
        else (st, [])
      else ((generate_and_reply st m.chatId m.text outcome).1, [m.text])

/-- The observable answers `set_reply_mode` can send back. -/
inductive ModeReply where
  | groupOnly
  | currentMode (mentionOnly : Bool)
  | setTrue
  | setFalse
  | invalidOption
deriving DecidableEq

/-- `set_reply_mode` (src/main.py lines 238-259): rejected in private
chats; with no argument reports the current mode; otherwise lowercases
the first argument and matches it against the accepted token lists. -/
def set_reply_mode (st : BotState) (chatId : Int) (chatType : ChatType)
    (args : List String) : BotState × ModeReply :=
  match chatType with
  | .PRIVATE => (st, .groupOnly)
  | .GROUP =>
      match args with
      | [] => (st, .currentMode ((st.chat_reply_modes chatId).getD false))
      | a :: _ =>
          let new_mode_str := pyLower a
          if new_mode_str = "true" ∨ new_mode_str = "on" ∨ new_mode_str = "yes" then
            ({ st with
                chat_reply_modes := fun c =>
                  if c = chatId then some true else st.chat_reply_modes c },
             .setTrue)
          else if new_mode_str = "false" ∨ new_mode_str = "off" ∨ new_mode_str = "no" then
            ({ st with
                chat_reply_modes := fun c =>
                  if c = chatId then some false else st.chat_reply_modes c },
             .setFalse)
          else (st, .invalidOption)

/-- Iterated generation calls on one chat's history (each element is the
prompt and the remote outcome of one call). -/
def runCalls (hist : List Turn) : List (String × GenOutcome) → List Turn
  | [] => hist
  | pe :: rest => runCalls (generate_gemini_answer pe.1 hist pe.2).2 rest

/-- A bot state with no reply-mode entries and all histories empty. -/
def initSt : BotState := ⟨fun _ => none, fun _ => []⟩

/-- A bot state whose reply-mode flag is `true` for every chat. -/
def mentionOnlySt : BotState := ⟨fun _ => some true, fun _ => []⟩

/-- A history already at the 20-turn capacity. -/
def hist20 : List Turn := List.replicate 20 (userTurn "x")

/-! ### Helper lemmas about the bounded deque and the generation call -/

lemma dequeAppend_of_lt {m : Nat} (h : List Turn) (t : Turn)
    (hm : h.length < m) : dequeAppend m h t = h ++ [t] := by
  unfold dequeAppend
  have h0 : h.length + 1 - m = 0 := by omega
  rw [h0, List.drop_zero]

lemma dequeAppend_length (m : Nat) (h : List Turn) (t : Turn) :
    (dequeAppend m h t).length = min (h.length + 1) m := by
  unfold dequeAppend
  rw [List.length_drop, List.length_append]
  simp only [List.length_singleton]
  omega

lemma dequeAppend_suffix (m : Nat) (h : List Turn) (t : Turn) :
    dequeAppend m h t <:+ h ++ [t] :=
  List.drop_suffix _ _

lemma isSuffix_append_same {α : Type} {l1 l2 : List α} (hs : l1 <:+ l2)
    (l3 : List α) : l1 ++ l3 <:+ l2 ++ l3 := by
  obtain ⟨x, hx⟩ := hs
  exact ⟨x, by rw [← hx, List.append_assoc]⟩

lemma dequeAppend_at_cap {m : Nat} (h : List Turn) (t : Turn)
    (hm : h.length = m) (hm1 : 1 ≤ m) :
    dequeAppend m h t = h.drop 1 ++ [t] := by
  unfold dequeAppend
  have h1 : h.length + 1 - m = 1 := by omega
  rw [h1, List.drop_append_of_le_length (by omega)]

lemma gen_error_hist (p : String) (hist : List Turn) (e : GenOutcome)
    (he : e.isError = true) :
    (generate_gemini_answer p hist e).2 =
      (dequeAppend HISTORY_MAXLEN hist (userTurn p)).dropLast := by
  cases e with
  | success t => simp [GenOutcome.isError] at he
  | apiError => rfl
  | otherError => rfl

/-- C1: claimed exact rollback on failure; refuted at capacity. -/
theorem claim_C1_rollback (p : String) (hist : List Turn) (e : GenOutcome)
    (he : e.isError = true) (hlen : hist.length ≤ HISTORY_MAXLEN) :
    (generate_gemini_answer p hist e).2 =
      if hist.length < HISTORY_MAXLEN then hist else hist.drop 1 := by
  rw [gen_error_hist p hist e he]
  by_cases hlt : hist.length < HISTORY_MAXLEN
  · rw [if_pos hlt, dequeAppend_of_lt hist (userTurn p) hlt,
      List.dropLast_concat]
  · have heq : hist.length = HISTORY_MAXLEN := by omega
    have h20 : HISTORY_MAXLEN = 20 := rfl
    rw [if_neg hlt, dequeAppend_at_cap hist (userTurn p) heq (by omega),
      List.dropLast_concat]

theorem claim_C1_witness :
    (generate_gemini_answer "p" [userTurn "a"] GenOutcome.apiError).2 =
      if ([userTurn "a"] : List Turn).length < HISTORY_MAXLEN
      then [userTurn "a"] else List.drop 1 [userTurn "a"] :=
  claim_C1_rollback "p" [userTurn "a"] GenOutcome.apiError (by decide)
    (by decide)

theorem claim_C1_counterexample :
    hist20.length = 20 ∧
    (generate_gemini_answer "p" hist20 GenOutcome.apiError).2 ≠ hist20 := by
  decide

lemma gen_len_le (p : String) (hist : List Turn) (e : GenOutcome)
    (hlen : hist.length ≤ HISTORY_MAXLEN) :
    ((generate_gemini_answer p hist e).2).length ≤ HISTORY_MAXLEN := by
  have h20 : HISTORY_MAXLEN = 20 := rfl
  cases e with
  | success t =>
      by_cases hne : pyStrip t ≠ ""
      · simp only [generate_gemini_answer, if_pos hne]
        rw [dequeAppend_length, dequeAppend_length]
        omega
      · simp only [generate_gemini_answer, if_neg hne]
        rw [dequeAppend_length]
        omega
  | apiError =>
      rw [gen_error_hist p hist .apiError rfl, List.length_dropLast,
        dequeAppend_length]
      omega
  | otherError =>
      rw [gen_error_hist p hist .otherError rfl, List.length_dropLast,
        dequeAppend_length]
      omega

/-- C3: capacity invariant over any call sequence; front eviction. -/
theorem claim_C3_capacity (hist : List Turn)
    (calls : List (String × GenOutcome))
    (hlen : hist.length ≤ HISTORY_MAXLEN) :
    (runCalls hist calls).length ≤ HISTORY_MAXLEN ∧
      ∀ (h : List Turn) (t : Turn),
        dequeAppend HISTORY_MAXLEN h t <:+ h ++ [t] := by
  constructor
  · induction calls generalizing hist with
    | nil => exact hlen
    | cons pe rest ih => exact ih _ (gen_len_le pe.1 hist pe.2 hlen)
  · exact fun h t => dequeAppend_suffix _ h t

theorem claim_C3_witness :
    (runCalls [] [("p", GenOutcome.success "ok")]).length ≤ HISTORY_MAXLEN :=
  (claim_C3_capacity [] [("p", GenOutcome.success "ok")] (by decide)).1

/-- C4 amended: length law for successful calls with nonempty text. -/
theorem claim_C4_success_length (hist : List Turn) (p text : String)
    (hne : pyStrip text ≠ "") (hlen : hist.length ≤ HISTORY_MAXLEN) :
    ((generate_gemini_answer p hist (.success text)).2).length
        = min (hist.length + 2) HISTORY_MAXLEN ∧
      (generate_gemini_answer p hist (.success text)).2
        <:+ hist ++ [userTurn p, modelTurn text] := by
  have h20 : HISTORY_MAXLEN = 20 := rfl
  constructor
  · simp only [generate_gemini_answer, if_pos hne]
    rw [dequeAppend_length, dequeAppend_length]
    omega
  · simp only [generate_gemini_answer, if_pos hne]
    have h1 := dequeAppend_suffix HISTORY_MAXLEN hist (userTurn p)
    have h2 := dequeAppend_suffix HISTORY_MAXLEN
        (dequeAppend HISTORY_MAXLEN hist (userTurn p)) (modelTurn text)
    have h3 := isSuffix_append_same h1 [modelTurn text]
    have h4 := h2.trans h3
    have h5 : (hist ++ [userTurn p]) ++ [modelTurn text]
        = hist ++ [userTurn p, modelTurn text] := by simp
    rwa [h5] at h4

theorem claim_C4_witness :
    ((generate_gemini_answer "p" [] (GenOutcome.success "ok")).2).length
      = min (List.length ([] : List Turn) + 2) HISTORY_MAXLEN :=
  (claim_C4_success_length [] "p" "ok" (by decide) (by decide)).1

theorem claim_C4_counterexample :
    (generate_gemini_answer "p" [] (GenOutcome.success "   ")).2.length = 1 ∧
    (generate_gemini_answer "p" [] (GenOutcome.success "   ")).2.length ≠
      min (List.length ([] : List Turn) + 2) HISTORY_MAXLEN := by
  decide

/-- C9: whitespace-only success keeps the orphaned user turn and returns
the raw text. -/
theorem claim_C9_empty_response (p text : String) (hist : List Turn)
    (hempty : pyStrip text = "") :
    generate_gemini_answer p hist (.success text)
        = (text, dequeAppend HISTORY_MAXLEN hist (userTurn p)) ∧
      ((generate_gemini_answer p hist (.success text)).2).getLast?
        = some (userTurn p) := by
  have h20 : HISTORY_MAXLEN = 20 := rfl
  have hne : ¬ pyStrip text ≠ "" := by simpa using hempty
  constructor
  · simp only [generate_gemini_answer, if_neg hne]
  · simp only [generate_gemini_answer, if_neg hne]
    unfold dequeAppend
    rw [List.drop_append_of_le_length (by omega), List.getLast?_concat]

theorem claim_C9_witness :
    generate_gemini_answer "p" [] (GenOutcome.success " ")
        = (" ", dequeAppend HISTORY_MAXLEN [] (userTurn "p")) ∧
      ((generate_gemini_answer "p" [] (GenOutcome.success " ")).2).getLast?
        = some (userTurn "p") :=
  claim_C9_empty_response "p" " " [] (by decide)

/-- C7: a private-chat message always yields exactly one generate call
with the full message text as the prompt. -/
theorem claim_C7_direct_chat (botU : String) (st : BotState) (cid : Int)
    (text : String) (r : Bool) (o : GenOutcome) :
    (handle_message botU st ⟨cid, .PRIVATE, text, r⟩ o).2 = [text] := rfl

/-- C2 amended: group chat in mention-only mode replies iff replied-to or
mentioned, with the prompt equal to the text with ALL occurrences of the
handle removed (Python `str.replace`) and trimmed. -/
theorem claim_C2_group_mention_prompt (botU : String) (st : BotState)
    (m : IncomingMessage) (o : GenOutcome)
    (hg : m.chatType = .GROUP)
    (hmode : (st.chat_reply_modes m.chatId).getD false = true) :
    ((handle_message botU st m o).2 ≠ [] ↔
      (m.is_reply_to_bot = true ∨ pyIn ("@" ++ botU) m.text = true)) ∧
    ((m.is_reply_to_bot = true ∨ pyIn ("@" ++ botU) m.text = true) →
      (handle_message botU st m o).2
        = [pyStrip (pyReplace m.text ("@" ++ botU) "")]) := by
  obtain ⟨cid, ct, text, r⟩ := m
  cases ct with
  | PRIVATE => simp at hg
  | GROUP =>
      have hmode2 : (st.chat_reply_modes cid).getD false = true := hmode
      show ((handle_message botU st ⟨cid, .GROUP, text, r⟩ o).2 ≠ [] ↔
          (r = true ∨ pyIn ("@" ++ botU) text = true)) ∧
        ((r = true ∨ pyIn ("@" ++ botU) text = true) →
          (handle_message botU st ⟨cid, .GROUP, text, r⟩ o).2
            = [pyStrip (pyReplace text ("@" ++ botU) "")])
      cases hr : (r || pyIn ("@" ++ botU) text) with
      | true =>
          constructor
          · constructor
            · intro _
              cases hrb : r with
              | true => exact Or.inl rfl
              | false =>
                  right
                  rw [hrb] at hr
                  simpa using hr
            · intro _
              simp [handle_message, hmode2, hr]
          · intro _
            simp [handle_message, hmode2, hr]
      | false =>
          rw [Bool.or_eq_false_iff] at hr
          constructor
          · constructor
            · intro hne
              exact absurd (by simp [handle_message, hmode2, hr.1, hr.2]) hne
            · intro hcond
              rcases hcond with h | h
              · rw [hr.1] at h; exact absurd h (by decide)
              · rw [hr.2] at h; exact absurd h (by decide)
          · intro hcond
            rcases hcond with h | h
            · rw [hr.1] at h; exact absurd h (by decide)
            · rw [hr.2] at h; exact absurd h (by decide)

theorem claim_C2_witness :
    (handle_message "b" mentionOnlySt ⟨1, .GROUP, "@b hi", false⟩
        (GenOutcome.success "ok")).2
      = [pyStrip (pyReplace "@b hi" ("@" ++ "b") "")] :=
  (claim_C2_group_mention_prompt "b" mentionOnlySt ⟨1, .GROUP, "@b hi", false⟩
      (GenOutcome.success "ok") rfl rfl).2 (Or.inr (by decide))

theorem claim_C2_counterexample :
    (handle_message "b" mentionOnlySt ⟨1, .GROUP, "@b @b hi", false⟩
        (GenOutcome.success "ok")).2 = ["hi"] ∧
    specFirstRemovedPrompt "@b @b hi" "@b" = "@b hi" ∧
    ("hi" : String) ≠ "@b hi" := by
  decide

/-- C6: the router makes at most one generate call; when a group chat in
mention-only mode gets a message that neither replies to the bot nor
mentions it, no call is made and the whole state is unchanged. -/
theorem claim_C6_generate_call_count (botU : String) (st : BotState)
    (m : IncomingMessage) (o : GenOutcome) :
    ((handle_message botU st m o).2.length ≤ 1) ∧
    ((handle_message botU st m o).2.length = 1 ∨
      handle_message botU st m o = (st, [])) ∧
    (m.chatType = .GROUP →
      (st.chat_reply_modes m.chatId).getD false = true →
      m.is_reply_to_bot = false → pyIn ("@" ++ botU) m.text = false →
      handle_message botU st m o = (st, [])) := by
  obtain ⟨cid, ct, text, r⟩ := m
  cases ct with
  | PRIVATE =>
      refine ⟨Nat.le.refl, Or.inl rfl, ?_⟩
      intro hg
      simp at hg
  | GROUP =>
      cases hmode : (st.chat_reply_modes cid).getD false with
      | false =>
          refine ⟨?_, ?_, ?_⟩
          · simp [handle_message, hmode]
          · simp [handle_message, hmode]
          · intro _ hmode2
            exact absurd hmode2 (by decide)
      | true =>
          cases hr : (r || pyIn ("@" ++ botU) text) with
          | true =>
              refine ⟨?_, ?_, ?_⟩
              · simp [handle_message, hmode, hr]
              · simp [handle_message, hmode, hr]
              · intro _ _ hr1 hr2
                have hr3 : r = false := hr1
                have hr4 : pyIn ("@" ++ botU) text = false := hr2
                rw [hr3, hr4] at hr
                exact absurd hr (by decide)
          | false =>
              refine ⟨?_, ?_, ?_⟩
              · simp [handle_message, hmode, hr]
              · right
                simp [handle_message, hmode, hr]
              · intro _ _ _ _
                simp [handle_message, hmode, hr]

theorem claim_C6_witness :
    handle_message "b" mentionOnlySt ⟨1, .GROUP, "hello", false⟩
        (GenOutcome.success "ok")
      = (mentionOnlySt, []) :=
  (claim_C6_generate_call_count "b" mentionOnlySt ⟨1, .GROUP, "hello", false⟩
      (GenOutcome.success "ok")).2.2 rfl rfl rfl (by decide)

lemma set_reply_mode_group_true (st : BotState) (cid : Int) (t : String)
    (hv : pyLower t = "true" ∨ pyLower t = "on" ∨ pyLower t = "yes") :
    set_reply_mode st cid .GROUP [t] =
      ({ st with chat_reply_modes := fun c =>
          if c = cid then some true else st.chat_reply_modes c },
       .setTrue) := by
  simp only [set_reply_mode]
  rw [if_pos hv]

lemma set_reply_mode_group_false (st : BotState) (cid : Int) (t : String)
    (hv : pyLower t = "false" ∨ pyLower t = "off" ∨ pyLower t = "no") :
    set_reply_mode st cid .GROUP [t] =
      ({ st with chat_reply_modes := fun c =>
          if c = cid then some false else st.chat_reply_modes c },
       .setFalse) := by
  have hnot : ¬ (pyLower t = "true" ∨ pyLower t = "on" ∨ pyLower t = "yes") := by
    rcases hv with h | h | h <;> rw [h] <;> decide
  simp only [set_reply_mode]
  rw [if_neg hnot, if_pos hv]

/-- C5: mode-setting accepts the documented token sets case-insensitively,
rejects anything else with no state change, and rejects private chats
with no state change. -/
theorem claim_C5_mode_tokens (st : BotState) (cid : Int) (t : String) :
    (set_reply_mode st cid .PRIVATE [t] = (st, .groupOnly)) ∧
    ((pyLower t = "true" ∨ pyLower t = "on" ∨ pyLower t = "yes") →
      (set_reply_mode st cid .GROUP [t]).1.chat_reply_modes cid = some true ∧
      (set_reply_mode st cid .GROUP [t]).2 = .setTrue) ∧
    ((pyLower t = "false" ∨ pyLower t = "off" ∨ pyLower t = "no") →
      (set_reply_mode st cid .GROUP [t]).1.chat_reply_modes cid = some false ∧
      (set_reply_mode st cid .GROUP [t]).2 = .setFalse) ∧
    (¬ (pyLower t = "true" ∨ pyLower t = "on" ∨ pyLower t = "yes") →
      ¬ (pyLower t = "false" ∨ pyLower t = "off" ∨ pyLower t = "no") →
      set_reply_mode st cid .GROUP [t] = (st, .invalidOption)) := by
  refine ⟨rfl, ?_, ?_, ?_⟩
  · intro hv
    rw [set_reply_mode_group_true st cid t hv]
    exact ⟨by simp, rfl⟩
  · intro hv
    rw [set_reply_mode_group_false st cid t hv]
    exact ⟨by simp, rfl⟩
  · intro h1 h2
    simp only [set_reply_mode]
    rw [if_neg h1, if_neg h2]

theorem claim_C5_witness :
    set_reply_mode initSt 1 .GROUP ["MAYBE"] = (initSt, .invalidOption) :=
  (claim_C5_mode_tokens initSt 1 "MAYBE").2.2.2 (by decide) (by decide)

/-- C8: setting the same valid mode value twice gives the same flag as
setting it once, and neither call reports an error. -/
theorem claim_C8_mode_idempotent (st : BotState) (cid : Int) (t : String)
    (hv : pyLower t = "true" ∨ pyLower t = "on" ∨ pyLower t = "yes" ∨
          pyLower t = "false" ∨ pyLower t = "off" ∨ pyLower t = "no") :
    (∀ c, (set_reply_mode (set_reply_mode st cid .GROUP [t]).1 cid .GROUP
            [t]).1.chat_reply_modes c
        = (set_reply_mode st cid .GROUP [t]).1.chat_reply_modes c) ∧
    (set_reply_mode (set_reply_mode st cid .GROUP [t]).1 cid .GROUP [t]).2
        = (set_reply_mode st cid .GROUP [t]).2 ∧
    (set_reply_mode st cid .GROUP [t]).2 ≠ ModeReply.invalidOption ∧
    (set_reply_mode st cid .GROUP [t]).2 ≠ ModeReply.groupOnly := by
  by_cases htrue : pyLower t = "true" ∨ pyLower t = "on" ∨ pyLower t = "yes"
  · rw [set_reply_mode_group_true st cid t htrue]
    rw [set_reply_mode_group_true _ cid t htrue]
    refine ⟨?_, rfl, by simp, by simp⟩
    intro c
    by_cases hc : c = cid <;> simp [hc]
  · have hfalse : pyLower t = "false" ∨ pyLower t = "off" ∨ pyLower t = "no" := by
      rcases hv with h | h | h | h | h | h
      · exact absurd (Or.inl h) htrue
      · exact absurd (Or.inr (Or.inl h)) htrue
      · exact absurd (Or.inr (Or.inr h)) htrue
      · exact Or.inl h
      · exact Or.inr (Or.inl h)
      · exact Or.inr (Or.inr h)
    rw [set_reply_mode_group_false st cid t hfalse]
    rw [set_reply_mode_group_false _ cid t hfalse]
    refine ⟨?_, rfl, by simp, by simp⟩
    intro c
    by_cases hc : c = cid <;> simp [hc]

theorem claim_C8_witness :
    (set_reply_mode (set_reply_mode initSt 1 .GROUP ["on"]).1 1 .GROUP
        ["on"]).2
      = (set_reply_mode initSt 1 .GROUP ["on"]).2 :=
  (claim_C8_mode_idempotent initSt 1 "on" (Or.inr (Or.inl (by decide)))).2.1

/-- C10: handling a message never writes the reply-mode registry, and
setting the mode never writes any conversation history. -/
theorem claim_C10_frame (botU : String) (st : BotState) (m : IncomingMessage)
    (o : GenOutcome) (c : Int) (st2 : BotState) (cid2 : Int) (ct2 : ChatType)
    (args : List String) (c2 : Int) :
    (handle_message botU st m o).1.chat_reply_modes c
        = st.chat_reply_modes c ∧
    (set_reply_mode st2 cid2 ct2 args).1.histories c2 = st2.histories c2 := by
  constructor
  · obtain ⟨cid, ct, text, r⟩ := m
    cases ct with
    | PRIVATE => rfl
    | GROUP =>
        simp only [handle_message]
        split
        · split
          · rfl
          · rfl
        · rfl
  · cases ct2 with
    | PRIVATE => rfl
    | GROUP =>
        cases args with
        | nil => rfl
        | cons a as =>
            simp only [set_reply_mode]
            split
            · rfl
            · split
              · rfl
              · rfl
